import Mathlib

/-!
Verification of the Conversational Orchestration & Scheduling Core
(`local_assistance`): a shallow embedding of `calendar_manager.py`,
`privacy.py`, `cloud_proxy.py`, `nlu_engine.py` and `orchestrator.py`,
with theorems settling the spec's testable properties.

Timestamps are modelled as integers counting minutes (the SQL layer
compares isoformat strings, which agrees with chronological order);
`timedelta(hours=1)` is 60 and `timedelta(days=7)` is 10080.
-/

namespace Calendar

/-- Appointment status.  The schema default is `'confirmed'`; the only other
value the data model admits is `'cancelled'` (soft delete). -/
inductive Status
| confirmed
| cancelled
deriving DecidableEq, Repr

/-- A row of the `appointments` table
(`calendar_manager.py`, `CREATE TABLE appointments`). -/
structure Appointment where
  id : Nat
  title : String
  description : String
  start_datetime : Int
  end_datetime : Int
  attendees : List String
  status : Status
  created_by : String
  call_log_id : Option Nat
deriving DecidableEq, Repr

/-- A row of the `availability_windows` table. -/
structure Window where
  day_of_week : Nat
  start_time : Int
  end_time : Int
  buffer_minutes : Int
deriving DecidableEq, Repr

/-- The booking store: the two tables of `calendar.db` plus the
AUTOINCREMENT counter for appointment ids. -/
structure Store where
  appointments : List Appointment
  windows : List Window
  next_id : Nat
deriving DecidableEq, Repr

/-- The WHERE clause of the conflict query in `check_availability`
(`calendar_manager.py` lines 62-72): `status != 'cancelled'` and a
three-way disjunction of interval tests (the first two disjuncts are
syntactically identical in the source; both are kept). -/
def conflictCond (a : Appointment) (dt end_dt : Int) : Bool :=
  decide (a.status ≠ Status.cancelled) &&
  ((decide (a.start_datetime < end_dt) && decide (a.end_datetime > dt)) ||
   (decide (a.start_datetime < end_dt) && decide (a.end_datetime > dt)) ||
   (decide (a.start_datetime ≥ dt) && decide (a.end_datetime ≤ end_dt)))

/-- The WHERE clause of the probe query in `_suggest_alternatives`
(lines 95-103): `status != 'cancelled'` and the half-open overlap test,
written twice in the source. -/
def suggestConflict (a : Appointment) (check end_check : Int) : Bool :=
  decide (a.status ≠ Status.cancelled) &&
  ((decide (a.start_datetime < end_check) && decide (a.end_datetime > check)) ||
   (decide (a.start_datetime < end_check) && decide (a.end_datetime > check)))

/-- The `while` loop of `_suggest_alternatives`: probe hourly slots while
fewer than `remaining` suggestions are collected and the probe is inside
the 7-day horizon.  `fuel` only bounds the recursion: the loop advances
`check` by 60 each iteration, so starting from `preferred + 60` the
horizon guard stops it after at most 167 iterations and any fuel of at
least 168 makes the fuel-exhaustion branch unreachable. -/
def suggestLoop (appts : List Appointment) (preferred duration : Int) :
    Nat → Nat → Int → List Int
  | 0, _, _ => []
  | fuel+1, remaining, check =>
    if remaining = 0 then []
    else if check < preferred + 10080 then
      if appts.any (fun a => suggestConflict a check (check + duration)) then
        suggestLoop appts preferred duration fuel remaining (check + 60)
      else
        check :: suggestLoop appts preferred duration fuel (remaining - 1) (check + 60)
    else []

/-- `_suggest_alternatives(preferred, duration, conn, limit)`: first probe
is one hour after the preferred start. -/
def suggest_alternatives (appts : List Appointment) (preferred duration : Int)
    (limit : Nat) : List Int :=
  suggestLoop appts preferred duration 169 limit (preferred + 60)

/-- Result dictionary of `check_availability`. -/
structure AvailabilityResult where
  available : Bool
  conflicts : List (Nat × String)
  suggested_times : List Int
deriving DecidableEq, Repr

/-- `check_availability(dt, duration_minutes)`: run the conflict query;
if no conflicts report available, otherwise report the conflicting
`(id, title)` pairs and the suggested alternatives.  The function only
issues SELECT statements, so the store is returned unchanged. -/
def check_availability (st : Store) (dt : Int) (duration_minutes : Int) :
    AvailabilityResult × Store :=
  let end_dt := dt + duration_minutes
  let conflicts := st.appointments.filter (fun a => conflictCond a dt end_dt)
  if conflicts.isEmpty then
    ({ available := true, conflicts := [], suggested_times := [] }, st)
  else
    ({ available := false,
       conflicts := conflicts.map (fun a => (a.id, a.title)),
       suggested_times := suggest_alternatives st.appointments dt duration_minutes 3 }, st)

/-- Result dictionary of `book_appointment` (the success and the
conflict shapes folded into one record with optional fields). -/
structure BookResult where
  success : Bool
  appointment_id : Option Nat
  message : String
  conflicts : List (Nat × String)
deriving DecidableEq, Repr

/-- Phase 1 of `book_appointment` (line 114): the availability re-check,
a read-only transaction of its own. -/
def bookCheck (st : Store) (start_datetime duration : Int) : AvailabilityResult :=
  (check_availability st start_datetime duration).1

/-- Phase 2 of `book_appointment` (lines 118-140): the INSERT, a second,
separate transaction.  The `status` column is omitted by the INSERT and
takes the schema default `'confirmed'`; the new row id is `lastrowid`. -/
def bookInsert (st : Store) (title : String) (start_datetime duration : Int)
    (attendees : List String) (description : String) (created_by : String)
    (call_log_id : Option Nat) : BookResult × Store :=
  let end_dt := start_datetime + duration
  let appt : Appointment :=
    { id := st.next_id, title := title, description := description,
      start_datetime := start_datetime, end_datetime := end_dt,
      attendees := attendees, status := Status.confirmed,
      created_by := created_by, call_log_id := call_log_id }
  ({ success := true, appointment_id := some st.next_id,
     message := "Booked for " ++ toString start_datetime, conflicts := [] },
   { st with appointments := st.appointments ++ [appt], next_id := st.next_id + 1 })

/-- `book_appointment(title, start_datetime, duration, attendees)`:
re-check availability, then insert.  Note the source performs NO
validation of the interval itself. -/
def book_appointment (st : Store) (title : String) (start_datetime duration : Int)
    (attendees : List String) : BookResult × Store :=
  let avail := bookCheck st start_datetime duration
  if avail.available then
    bookInsert st title start_datetime duration attendees "" "system" none
  else
    ({ success := false, appointment_id := none, message := "Slot not available",
       conflicts := avail.conflicts }, st)

/-- Two concurrent `book_appointment` calls against the same store under
the schedule check-A, check-B, insert-A, insert-B.  Each phase is one
sqlite transaction and hence atomic, but nothing in the source serializes
the check-then-insert pair, so this interleaving is realizable. -/
def book_appointment_pair_interleaved (st0 : Store)
    (titleA : String) (startA durA : Int)
    (titleB : String) (startB durB : Int) :
    BookResult × BookResult × Store :=
  let availA := bookCheck st0 startA durA
  let availB := bookCheck st0 startB durB
  let resA :=
    if availA.available then bookInsert st0 titleA startA durA [] "" "system" none
    else ({ success := false, appointment_id := none, message := "Slot not available",
            conflicts := availA.conflicts }, st0)
  let resB :=
    if availB.available then bookInsert resA.2 titleB startB durB [] "" "system" none
    else ({ success := false, appointment_id := none, message := "Slot not available",
            conflicts := availB.conflicts }, resA.2)
  (resA.1, resB.1, resB.2)

/-- The spec's conflict rule on raw half-open intervals
(spec 4.2: `existing.start < proposed.end AND proposed.start < existing.end`),
stated for comparison with the relation the code computes. -/
def overlaps (s1 e1 s2 e2 : Int) : Bool :=
  decide (s1 < e2) && decide (s2 < e1)

/-- The empty store (fresh database; windows irrelevant to the claims). -/
def emptyStore : Store := { appointments := [], windows := [], next_id := 1 }

/-- A store holding one confirmed appointment 900-960 ("Standup"). -/
def demoAppt : Appointment :=
  { id := 1, title := "Standup", description := "", start_datetime := 900,
    end_datetime := 960, attendees := [], status := Status.confirmed,
    created_by := "system", call_log_id := none }

def demoStore : Store := { appointments := [demoAppt], windows := [], next_id := 2 }

/-- C3: for any stored appointment with a valid interval, the conflict
relation computed by `check_availability` holds iff the appointment is
confirmed and the half-open overlap rule
`existing.start < proposed.end AND proposed.start < existing.end` holds;
the overlap rule is symmetric and reflexive on non-empty intervals. -/
theorem conflict_rule_matches_halfopen_overlap (a : Appointment)
    (dt end_dt s1 e1 s2 e2 : Int)
    (hvalid : a.start_datetime < a.end_datetime) (hne : s1 < e1) :
    (conflictCond a dt end_dt = true ↔
      (a.status = Status.confirmed ∧ a.start_datetime < end_dt ∧ dt < a.end_datetime)) ∧
    overlaps s1 e1 s2 e2 = overlaps s2 e2 s1 e1 ∧
    overlaps s1 e1 s1 e1 = true := by
  refine ⟨?_, ?_, ?_⟩
  · cases h : a.status
    · simp only [conflictCond, h]
      simp
      omega
    · simp [conflictCond, h]
  · simp [overlaps, Bool.and_comm]
  · simp [overlaps, hne]

/-- Witness for C3 at a concrete appointment and concrete intervals. -/
theorem conflict_rule_matches_halfopen_overlap_witness :
    (conflictCond demoAppt 930 990 = true ↔
      (demoAppt.status = Status.confirmed ∧ demoAppt.start_datetime < 990 ∧
        (930 : Int) < demoAppt.end_datetime)) ∧
    overlaps 0 10 5 15 = overlaps 5 15 0 10 ∧
    overlaps 0 10 0 10 = true :=
  conflict_rule_matches_halfopen_overlap demoAppt 930 990 0 10 5 15
    (by decide) (by decide)

/-- C10: `check_availability` is read-only: it returns the store exactly
as it received it, conflict or not. -/
theorem check_availability_readonly (st : Store) (dt duration : Int) :
    (check_availability st dt duration).2 = st := by
  unfold check_availability
  dsimp only
  split <;> rfl

/-- C8 (failing input): booking a zero-length interval (`start = end`,
i.e. `start >= end`) on an empty store is NOT rejected: the call
succeeds and inserts a degenerate appointment row, contradicting the
claim that invalid intervals are rejected before touching storage. -/
theorem invalid_interval_booked_not_rejected :
    (book_appointment emptyStore "Meeting" 600 0 []).1.success = true ∧
    (book_appointment emptyStore "Meeting" 600 0 []).2.appointments.length = 1 ∧
    (book_appointment emptyStore "Meeting" 600 0 []).2 ≠ emptyStore := by
  refine ⟨rfl, rfl, ?_⟩
  decide

/-- C1 (failing schedule): two concurrent bookings of the same slot on an
empty store, interleaved as check-A, check-B, insert-A, insert-B: BOTH
return success and the final store holds two confirmed appointments with
identical (hence overlapping) intervals — the at-most-one-winner
contract fails and the loser never observes a conflict list. -/
theorem concurrent_bookings_both_succeed :
    ((book_appointment_pair_interleaved emptyStore "A" 600 60 "B" 600 60).1.success
        = true) ∧
    ((book_appointment_pair_interleaved emptyStore "A" 600 60 "B" 600 60).2.1.success
        = true) ∧
    ((book_appointment_pair_interleaved emptyStore "A" 600 60 "B" 600 60).2.2.appointments.map
        (fun a => (a.start_datetime, a.end_datetime, a.status))
      = [(600, 660, Status.confirmed), (600, 660, Status.confirmed)]) ∧
    overlaps 600 660 600 660 = true := by
  refine ⟨rfl, rfl, ?_, by decide⟩
  decide

/-- Soundness of the probe loop of `_suggest_alternatives`: it returns at
most `remaining` probes; every returned probe lies a whole number of
hours at or after `check`, inside the 7-day horizon, and fails the probe
conflict query against every appointment. -/
theorem suggestLoop_sound (appts : List Appointment) (preferred duration : Int) :
    ∀ (fuel remaining : Nat) (check : Int),
      (suggestLoop appts preferred duration fuel remaining check).length ≤ remaining ∧
      ∀ s ∈ suggestLoop appts preferred duration fuel remaining check,
        (∃ j : Nat, s = check + 60 * j) ∧ s < preferred + 10080 ∧
        ∀ a ∈ appts, suggestConflict a s (s + duration) = false := by
  intro fuel
  induction fuel with
  | zero => intro remaining check; simp [suggestLoop]
  | succ n ih =>
    intro remaining check
    rw [suggestLoop]
    split
    next h0 => simp
    next h0 =>
      split
      next hh =>
        split
        next hc =>
          obtain ⟨hlen, hmem⟩ := ih remaining (check + 60)
          refine ⟨hlen, ?_⟩
          intro s hs
          obtain ⟨⟨j, hj⟩, hhor, hfree⟩ := hmem s hs
          exact ⟨⟨j + 1, by omega⟩, hhor, hfree⟩
        next hc =>
          obtain ⟨hlen, hmem⟩ := ih (remaining - 1) (check + 60)
          simp only [List.any_eq_true, not_exists, not_and] at hc
          constructor
          · simp only [List.length_cons]
            omega
          · intro s hs
            rcases List.mem_cons.mp hs with hs | hs
            · subst hs
              refine ⟨⟨0, by omega⟩, hh, ?_⟩
              intro a ha
              have := hc a ha
              simpa using this
            · obtain ⟨⟨j, hj⟩, hhor, hfree⟩ := hmem s hs
              exact ⟨⟨j + 1, by omega⟩, hhor, hfree⟩
      next hh => simp

/-- C5: the suggestions returned by `check_availability` number at most 3;
each lies a positive whole number of hours after the proposed start,
inside the 7-day horizon, and overlaps no confirmed appointment of the
store under the half-open rule. -/
theorem suggestions_bounded_and_conflict_free (st : Store) (dt duration : Int) :
    (check_availability st dt duration).1.suggested_times.length ≤ 3 ∧
    ∀ s ∈ (check_availability st dt duration).1.suggested_times,
      (∃ k : Nat, s = dt + 60 * (k + 1)) ∧ s < dt + 10080 ∧
      ∀ a ∈ st.appointments, a.status = Status.confirmed →
        ¬(a.start_datetime < s + duration ∧ s < a.end_datetime) := by
  unfold check_availability
  dsimp only
  split
  · simp
  · obtain ⟨hlen, hmem⟩ := suggestLoop_sound st.appointments dt duration 169 3 (dt + 60)
    refine ⟨hlen, ?_⟩
    intro s hs
    obtain ⟨⟨j, hj⟩, hhor, hfree⟩ := hmem s hs
    refine ⟨⟨j, by omega⟩, by omega, ?_⟩
    intro a ha hconf hlap
    have hfa := hfree a ha
    simp [suggestConflict, hconf] at hfa
    omega

/-- Witness for C5: with Standup 900-960 booked and a proposal at 930 for
60 minutes, the suggestion list is bounded by 3 and contains 990, which
is a whole number of hours past the proposal, inside the horizon, and
clear of the Standup appointment. -/
theorem suggestions_bounded_and_conflict_free_witness :
    (check_availability demoStore 930 60).1.suggested_times.length ≤ 3 ∧
    ((∃ k : Nat, (990 : Int) = 930 + 60 * (k + 1)) ∧ (990 : Int) < 930 + 10080 ∧
      ¬(demoAppt.start_datetime < 990 + 60 ∧ (990 : Int) < demoAppt.end_datetime)) := by
  refine ⟨(suggestions_bounded_and_conflict_free demoStore 930 60).1, ?_⟩
  have h := (suggestions_bounded_and_conflict_free demoStore 930 60).2 990 (by decide)
  exact ⟨h.1, h.2.1, h.2.2 demoAppt (by decide) (by decide)⟩

end Calendar

namespace Privacy

/-- `\w` on the ASCII text this gate processes: letters, digits,
underscore. -/
def isWordChar (c : Char) : Bool :=
  (decide ('a' ≤ c) && decide (c ≤ 'z')) || (decide ('A' ≤ c) && decide (c ≤ 'Z')) ||
  (decide ('0' ≤ c) && decide (c ≤ '9')) || decide (c = '_')

def isDigitChar (c : Char) : Bool := decide ('0' ≤ c) && decide (c ≤ '9')

def isUpperChar (c : Char) : Bool := decide ('A' ≤ c) && decide (c ≤ 'Z')

def isLowerChar (c : Char) : Bool := decide ('a' ≤ c) && decide (c ≤ 'z')

/-- The class `[\w\.-]` of the email pattern. -/
def isEmailChar (c : Char) : Bool := isWordChar c || decide (c = '.') || decide (c = '-')

/-- The class `[\d\-\(\)]` of the phone pattern. -/
def isPhoneChar (c : Char) : Bool :=
  isDigitChar c || decide (c = '-') || decide (c = '(') || decide (c = ')')

def isWordOpt : Option Char → Bool
  | none => false
  | some c => isWordChar c

/-- `\b`: a word boundary lies between two positions iff exactly one side
holds a word character (an absent side counts as non-word). -/
def boundary (p q : Option Char) : Bool := isWordOpt p != isWordOpt q

/-- A matcher receives the character preceding the current position (for
word-boundary tests) and the remaining input; on a match it returns the
matched characters and the rest of the input. -/
def Matcher : Type := Option Char → List Char → Option (List Char × List Char)

/-- Backtracking split of the email tail `[\w\.-]+\.\w+` over the greedy
class run `R` after the at-sign: the engine shrinks the run from the
right, so the split point is the last index `k ≥ 1` holding a dot
followed by a word character. -/
def validDot (R : List Char) (k : Nat) : Bool :=
  decide (1 ≤ k) && decide (R.getD k ' ' = '.') && isWordChar (R.getD (k+1) ' ')

def lastValidDot (R : List Char) : Option Nat :=
  (List.range R.length).reverse.find? (fun k => validDot R k)

/-- `\b[\w\.-]+@[\w\.-]+\.\w+\b` at one position.  The leading class run
is maximal (a shorter run still faces a class character, never the
at-sign); the tail backtracks to the last usable dot; the final `\b`
always holds after a maximal word run. -/
def emailMatch : Matcher := fun p s =>
  if !boundary p s.head? then none else
  let r1 := s.takeWhile isEmailChar
  if r1.isEmpty then none else
  match s.drop r1.length with
  | '@' :: t =>
    let R := t.takeWhile isEmailChar
    match lastValidDot R with
    | none => none
    | some k =>
      let w := ((R.drop (k+1)).takeWhile isWordChar).length
      let n := r1.length + 1 + k + 1 + w
      some (s.take n, s.drop n)
  | _ => none

/-- Largest length `L ≥ 10` of a prefix of the greedy class run `R` after
which the trailing `\b` holds: the engine backtracks `{10,}` from the
right.  `next` is the first character after the whole run. -/
def phoneEndLen (R : List Char) (next : Option Char) : Option Nat :=
  (List.range (R.length + 1)).reverse.find? (fun L =>
    decide (10 ≤ L) &&
    boundary (some (R.getD (L - 1) ' '))
      (if decide (L < R.length) then some (R.getD L ' ') else next))

/-- `\b\+?[\d\-\(\)]{10,}\b` at one position: an optional leading plus
sign (the plus is not in the class, so omitting a present plus can never
help), then at least ten class characters ending at a word boundary. -/
def phoneMatch : Matcher := fun p s =>
  if !boundary p s.head? then none else
  let plus : Nat :=
    match s.head? with
    | some '+' => 1
    | _ => 0
  let t := s.drop plus
  let R := t.takeWhile isPhoneChar
  match phoneEndLen R (t.drop R.length).head? with
  | some L => some (s.take (plus + L), s.drop (plus + L))
  | none => none

/-- `\b[A-Z][a-z]+ [A-Z][a-z]+\b` at one position: capital, maximal
lowercase run, space, capital, maximal lowercase run; the trailing `\b`
holds iff the next character is not a word character (a shorter second
run only exposes another lowercase letter). -/
def nameMatch : Matcher := fun p s =>
  if !boundary p s.head? then none else
  match s with
  | c1 :: t1 =>
    if !isUpperChar c1 then none else
    let r1 := t1.takeWhile isLowerChar
    if r1.isEmpty then none else
    match t1.drop r1.length with
    | ' ' :: c2 :: t3 =>
      if !isUpperChar c2 then none else
      let r2 := t3.takeWhile isLowerChar
      if r2.isEmpty then none else
      if isWordOpt (t3.drop r2.length).head? then none else
      let n := 1 + r1.length + 1 + 1 + r2.length
      some (s.take n, s.drop n)
    | _ => none
  | [] => none

/-- `str.upper()` on the ASCII pattern names ("email", "phone", "name"). -/
def py_upper (s : String) : String :=
  String.mk (s.data.map (fun c => if isLowerChar c then Char.ofNat (c.toNat - 32) else c))

/-- One `re.sub(pattern, repl, text)` pass with the `repl` closure of
`anonymize_text`: scan left to right; at a match emit a fresh placeholder
`[TYPE_n]` (`n` = current mapping size) and record the original;
otherwise copy one character.  Matches are non-overlapping and the
preceding original character is carried for boundary tests.  Every step
consumes at least one input character (none of the three patterns
matches the empty string), so fuel equal to the input length suffices. -/
def subAux (m : Matcher) (ty : String) :
    Nat → Option Char → List Char → List (String × String) →
    List Char × List (String × String)
  | 0, _, _, mapping => ([], mapping)
  | fuel+1, prev, s, mapping =>
    match s with
    | [] => ([], mapping)
    | c :: rest =>
      match m prev s with
      | some (matched, restAfter) =>
        let placeholder := "[" ++ ty ++ "_" ++ toString mapping.length ++ "]"
        let mapping1 := mapping ++ [(placeholder, String.mk matched)]
        let r := subAux m ty fuel matched.getLast? restAfter mapping1
        (placeholder.data ++ r.1, r.2)
      | none =>
        let r := subAux m ty fuel (some c) rest mapping
        (c :: r.1, r.2)

/-- `re.sub` for one `(pii_type, pattern)` entry of `self.patterns`,
threading the shared mapping dictionary; the placeholder tag is
`pii_type.upper()`. -/
def sub_pattern (pii_type : String) (m : Matcher) (text : List Char)
    (mapping : List (String × String)) : List Char × List (String × String) :=
  subAux m (py_upper pii_type) text.length none text mapping

/-- `self.patterns`, in the order of the source dict. -/
def patterns : List (String × Matcher) :=
  [("email", emailMatch), ("phone", phoneMatch), ("name", nameMatch)]

/-- `anonymize_text(text)`: apply each pattern in order, threading the
text and the mapping; return the redacted text and the mapping. -/
def anonymize_text (text : String) : String × List (String × String) :=
  let r := patterns.foldl
    (fun (acc : List Char × List (String × String)) (pr : String × Matcher) =>
      sub_pattern pr.1 pr.2 acc.1 acc.2)
    (text.data, [])
  (String.mk r.1, r.2)

/-- Python `str.replace`: replace every non-overlapping occurrence,
scanning left to right.  Fuel equal to the input length suffices because
every step consumes at least one input character (placeholders are never
empty). -/
def replaceAux (pat rep : List Char) : Nat → List Char → List Char
  | 0, s => s
  | fuel+1, s =>
    match s with
    | [] => []
    | c :: rest =>
      if pat.isPrefixOf s then
        rep ++ replaceAux pat rep fuel (s.drop pat.length)
      else
        c :: replaceAux pat rep fuel rest

def str_replace (s pat rep : List Char) : List Char :=
  replaceAux pat rep s.length s

/-- `deanonymize_text(anonymized, mapping)`: literal placeholder-for-
original substitution, iterating the mapping in insertion order. -/
def deanonymize_text (anonymized : String) (mapping : List (String × String)) : String :=
  String.mk (mapping.foldl (fun t pr => str_replace t pr.1.data pr.2.data) anonymized.data)

/-- `re.search` for one of the configured patterns: does it match at some
position of the text? -/
def searchAux (m : Matcher) : Nat → Option Char → List Char → Bool
  | 0, _, _ => false
  | fuel+1, prev, s =>
    match s with
    | [] => false
    | c :: rest =>
      match m prev s with
      | some _ => true
      | none => searchAux m fuel (some c) rest

def re_search (m : Matcher) (text : List Char) : Bool :=
  searchAux m text.length none text

/-- Does the text contain a substring matching any configured PII
pattern? -/
def contains_pii (text : String) : Bool :=
  patterns.any (fun pr => re_search pr.2 text.data)

/-- C2 (failing input): the input below already contains the literal
placeholder text that `anonymize_text` picks for its one email, so
`deanonymize_text` substitutes BOTH occurrences and the round trip does
not restore the original. -/
theorem roundtrip_fails_on_placeholder_input :
    (anonymize_text "[EMAIL_0] a@b.c").1 = "[EMAIL_0] [EMAIL_0]" ∧
    (anonymize_text "[EMAIL_0] a@b.c").2 = [("[EMAIL_0]", "a@b.c")] ∧
    deanonymize_text (anonymize_text "[EMAIL_0] a@b.c").1
        (anonymize_text "[EMAIL_0] a@b.c").2 = "a@b.c a@b.c" ∧
    deanonymize_text (anonymize_text "[EMAIL_0] a@b.c").1
        (anonymize_text "[EMAIL_0] a@b.c").2 ≠ "[EMAIL_0] a@b.c" := by
  refine ⟨by decide, by decide, by decide, by decide⟩

/-- A full match of one pattern on a standalone string: the matcher, run
with no outer context, consumes the entire string (`re.fullmatch`). -/
def fullmatch (m : Matcher) (s : String) : Bool :=
  match m none s.data with
  | some (matched, rest) => decide (matched = s.data) && rest.isEmpty
  | none => false

/-- C4 (failing input): the input below flows through `anonymize_text`
UNCHANGED, because the phone pattern's word-boundary anchors cannot fire
between word characters; the redacted output therefore contains the
substring `1234567890`, a string matching the configured phone pattern.
The last conjunct records why the code misses it: scanning the redacted
text with the anchors evaluated in context finds no match, which is
exactly how the ten-digit number escapes redaction. -/
theorem redacted_output_matches_pii_pattern :
    (anonymize_text "a1234567890x").1 = "a1234567890x" ∧
    (anonymize_text "a1234567890x").2 = [] ∧
    "a1234567890x".data = ['a'] ++ "1234567890".data ++ ['x'] ∧
    fullmatch phoneMatch "1234567890" = true ∧
    contains_pii (anonymize_text "a1234567890x").1 = false := by
  refine ⟨by decide, by decide, by decide, by decide, by decide⟩

end Privacy

namespace Cloud

/-- The cloud-provider keys of `Config` consulted by `call_llm`
(`None` models an unset environment variable). -/
structure ProxyConfig where
  openai_api_key : Option String
  anthropic_api_key : Option String

/-- The flags of `CloudProxy`: the constructor argument `enabled` and
the per-session `user_consent` flag. -/
structure CloudProxy where
  enabled : Bool
  user_consent : Bool

/-- The HTTP transport: per attempt number, either a response
(status code, body content) or a transport failure / timeout. -/
def Net : Type := Nat → Option (Nat × String)

/-- The retry loop of `_call_openai`
(`for attempt in range(max_retries + 1)`): post the prompt; on status
200 return the content, otherwise back off and retry.  The second
component collects the prompt payload of every post issued. -/
def callOpenaiAux (net : Net) (prompt : String) :
    Nat → Nat → Option String × List String
  | _, 0 => (none, [])
  | attempt, n+1 =>
    match net attempt with
    | some (status, content) =>
      if status = 200 then (some content, [prompt])
      else
        let r := callOpenaiAux net prompt (attempt + 1) n
        (r.1, prompt :: r.2)
    | none =>
      let r := callOpenaiAux net prompt (attempt + 1) n
      (r.1, prompt :: r.2)

def call_openai (net : Net) (prompt : String) (max_retries : Nat) :
    Option String × List String :=
  callOpenaiAux net prompt 0 (max_retries + 1)

/-- `_call_anthropic` is an empty stub (`pass`): it returns None and
posts nothing. -/
def call_anthropic (_net : Net) (_prompt : String) (_max_retries : Nat) :
    Option String × List String :=
  (none, [])

/-- `call_llm(prompt, max_retries)`: refuse unless cloud offloading is
enabled AND the user consented; otherwise anonymize the prompt and hand
only the redacted text to whichever provider has a key.  The mapping
from the gate is dropped on the spot and is part of no payload. -/
def call_llm (cfg : ProxyConfig) (px : CloudProxy) (net : Net) (prompt : String)
    (max_retries : Nat) : Option String × List String :=
  if !px.enabled || !px.user_consent then (none, [])
  else
    let anonymized := (Privacy.anonymize_text prompt).1
    match cfg.openai_api_key with
    | some _ => call_openai net anonymized max_retries
    | none =>
      match cfg.anthropic_api_key with
      | some _ => call_anthropic net anonymized max_retries
      | none => (none, [])

/-- Every payload the retry loop posts is the prompt it was handed. -/
theorem callOpenaiAux_sends_only (net : Net) (prompt : String) :
    ∀ (n attempt : Nat) (sent : String),
      sent ∈ (callOpenaiAux net prompt attempt n).2 → sent = prompt := by
  intro n
  induction n with
  | zero => intro attempt sent h; simp [callOpenaiAux] at h
  | succ k ih =>
    intro attempt sent h
    rw [callOpenaiAux] at h
    rcases hn : net attempt with _ | p
    · rw [hn] at h
      dsimp only at h
      rcases List.mem_cons.mp h with h | h
      · exact h
      · exact ih (attempt + 1) sent h
    · rcases p with ⟨status, content⟩
      rw [hn] at h
      dsimp only at h
      by_cases hs : status = 200
      · rw [if_pos hs] at h
        simpa using h
      · rw [if_neg hs] at h
        rcases List.mem_cons.mp h with h | h
        · exact h
        · exact ih (attempt + 1) sent h

/-- C6: every payload `call_llm` sends to a remote provider equals the
redacted output of `anonymize_text` on the prompt — so the placeholder
mapping is never sent, and an original plaintext that differs from its
redaction is never sent — and whenever cloud offloading is disabled or
consent is absent the call returns None having posted nothing. -/
theorem call_llm_only_redacted_egress (cfg : ProxyConfig) (px : CloudProxy)
    (net : Net) (prompt : String) (mr : Nat) :
    (∀ sent ∈ (call_llm cfg px net prompt mr).2,
        sent = (Privacy.anonymize_text prompt).1) ∧
    (prompt ≠ (Privacy.anonymize_text prompt).1 →
        prompt ∉ (call_llm cfg px net prompt mr).2) ∧
    (px.enabled = false ∨ px.user_consent = false →
        call_llm cfg px net prompt mr = (none, [])) := by
  have hmain : ∀ sent ∈ (call_llm cfg px net prompt mr).2,
      sent = (Privacy.anonymize_text prompt).1 := by
    intro sent h
    unfold call_llm at h
    by_cases hg : (!px.enabled || !px.user_consent) = true
    · rw [if_pos hg] at h
      simp at h
    · rw [if_neg hg] at h
      rcases ho : cfg.openai_api_key with _ | k
      · rw [ho] at h
        rcases ha : cfg.anthropic_api_key with _ | k2
        · rw [ha] at h
          simp at h
        · rw [ha] at h
          simp [call_anthropic] at h
      · rw [ho] at h
        exact callOpenaiAux_sends_only net _ (mr + 1) 0 sent h
  refine ⟨hmain, ?_, ?_⟩
  · intro hne hmem
    exact hne (hmain prompt hmem)
  · intro hoff
    unfold call_llm
    have : (!px.enabled || !px.user_consent) = true := by
      rcases hoff with h | h <;> simp [h]
    rw [if_pos this]

/-- A transport that always answers 200 "ok". -/
def demoNet : Net := fun _ => some (200, "ok")

def demoCfg : ProxyConfig := { openai_api_key := some "k", anthropic_api_key := none }

def pxOn : CloudProxy := { enabled := true, user_consent := true }

def pxNoConsent : CloudProxy := { enabled := true, user_consent := false }

/-- Witness for C6: with consent the one payload posted is the redacted
prompt (the email is replaced); without consent nothing is posted. -/
theorem call_llm_only_redacted_egress_witness :
    ("[EMAIL_0] hi" : String) = (Privacy.anonymize_text "john@x.com hi").1 ∧
    call_llm demoCfg pxNoConsent demoNet "john@x.com hi" 2 = (none, []) := by
  refine ⟨?_, ?_⟩
  · exact (call_llm_only_redacted_egress demoCfg pxOn demoNet "john@x.com hi" 2).1
      "[EMAIL_0] hi" (by decide)
  · exact (call_llm_only_redacted_egress demoCfg pxNoConsent demoNet "john@x.com hi" 2).2.2
      (Or.inr rfl)

end Cloud

namespace Nlu

/-- An intent dictionary: every key the engine or the orchestrator ever
reads, each optional (an absent key is `none`).  Confidences are the
exact rationals of the source's float literals. -/
structure IntentResult where
  intent : Option String
  confidence : Option Rat
  datetime : Option Int
  duration : Option Int
  title : Option String
  description : Option String
  due_date : Option String
  attendees : Option (List String)
  source : Option String
  text : Option String
  raw : Option String
deriving DecidableEq, Repr

/-- The dictionary with no keys. -/
def emptyIntent : IntentResult :=
  { intent := none, confidence := none, datetime := none, duration := none,
    title := none, description := none, due_date := none, attendees := none,
    source := none, text := none, raw := none }

/-- The float literal 0.5, as the exact rational one half. -/
def conf_keyword : Rat := Rat.mk' 1 2 (by decide) (by decide)

/-- The float literal 0.3; the comparisons made here never mix it with
other arithmetic, so the exact rational stands in for the float. -/
def conf_unknown : Rat := Rat.mk' 3 10 (by decide) (by decide)

/-- The float literal 0.8 stamped on a successful structured parse. -/
def conf_parsed : Rat := Rat.mk' 4 5 (by decide) (by decide)

/-- The escalation threshold 0.7 of the orchestrator. -/
def conf_threshold : Rat := Rat.mk' 7 10 (by decide) (by decide)

/-- Python's `sub in s` on character lists. -/
def listContains (sub : List Char) : List Char → Bool
  | [] => sub.isEmpty
  | c :: t => sub.isPrefixOf (c :: t) || listContains sub t

def containsSub (s sub : String) : Bool := listContains sub.data s.data

/-- `str.lower()` on the ASCII texts the fallback inspects. -/
def py_lower (s : String) : String :=
  String.mk (s.data.map (fun c =>
    if Privacy.isUpperChar c then Char.ofNat (c.toNat + 32) else c))

/-- `_rule_based_fallback(text)`: keyword cascade over the lowercased
text; matched keywords carry confidence 0.5, the unknown branch 0.3.
No `source` key is set by the source. -/
def rule_based_fallback (text : String) : IntentResult :=
  let text_lower := py_lower text
  if containsSub text_lower "available" || containsSub text_lower "free" then
    { emptyIntent with intent := some "check_availability", confidence := some conf_keyword }
  else if containsSub text_lower "book" || containsSub text_lower "schedule" then
    { emptyIntent with intent := some "book_appointment", confidence := some conf_keyword }
  else if containsSub text_lower "task" || containsSub text_lower "todo" then
    { emptyIntent with intent := some "create_task", confidence := some conf_keyword }
  else
    { emptyIntent with intent := some "unknown", confidence := some conf_unknown }

/-- `re.search` of a brace-open .. brace-close span with DOTALL and a
greedy dot: when a match exists it runs from the first opening brace to
the last closing brace after it. -/
def extract_json (content : String) : Option String :=
  let cs := content.data
  match cs.findIdx? (fun c => c = Char.ofNat 123) with
  | none => none
  | some i =>
    match cs.reverse.findIdx? (fun c => c = Char.ofNat 125) with
    | none => none
    | some rj =>
      let j := cs.length - 1 - rj
      if i < j then some (String.mk ((cs.drop i).take (j - i + 1))) else none

/-- `parse_intent(text, context)`.  The Ollama transport and Python's
`json.loads` are external collaborators, passed as parameters: the first
yields the model's message content or the exception it raised, the
second decodes a JSON object string.  On any model failure the engine
falls back to `_rule_based_fallback`; on success it extracts the first
brace-delimited span, decodes it, and stamps confidence 0.8. -/
def parse_intent (json_loads : String → Option IntentResult)
    (ollama_chat : Except Unit String) (text : String) : IntentResult :=
  match ollama_chat with
  | Except.error _ => rule_based_fallback text
  | Except.ok content =>
    let intent_data :=
      match extract_json content with
      | some js =>
        match json_loads js with
        | some d => d
        | none => { emptyIntent with intent := some "unknown", raw := some content }
      | none => { emptyIntent with intent := some "unknown", text := some content }
    { intent_data with confidence := some conf_parsed }

/-- C9 (counterexample): a fallback result carries no `source` key at
all, so in particular it does not carry `source = "fallback"` as the
claim states. -/
theorem fallback_carries_no_source :
    (parse_intent (fun _ => none) (Except.error ()) "please book a slot").source = none ∧
    (parse_intent (fun _ => none) (Except.error ()) "please book a slot").source
      ≠ some "fallback" := by
  refine ⟨by decide, by decide⟩

/-- C9 (amended): on an internal model error, local resolution returns
exactly the deterministic rule-based classification; the keyword cascade
maps "available"/"free" to check_availability, else "book"/"schedule" to
book_appointment, else "task"/"todo" to create_task, else unknown, with
confidence exactly 0.5 on matched keywords and 0.3 on unknown — and the
fallback result carries no `source` field (rather than the claimed
`source = fallback`). -/
theorem fallback_rule_table (json_loads : String → Option IntentResult)
    (t : String) :
    parse_intent json_loads (Except.error ()) t = rule_based_fallback t ∧
    ((containsSub (py_lower t) "available" || containsSub (py_lower t) "free") = true →
      rule_based_fallback t =
        { emptyIntent with intent := some "check_availability",
                           confidence := some conf_keyword }) ∧
    ((containsSub (py_lower t) "available" || containsSub (py_lower t) "free") = false →
      (containsSub (py_lower t) "book" || containsSub (py_lower t) "schedule") = true →
      rule_based_fallback t =
        { emptyIntent with intent := some "book_appointment",
                           confidence := some conf_keyword }) ∧
    ((containsSub (py_lower t) "available" || containsSub (py_lower t) "free") = false →
      (containsSub (py_lower t) "book" || containsSub (py_lower t) "schedule") = false →
      (containsSub (py_lower t) "task" || containsSub (py_lower t) "todo") = true →
      rule_based_fallback t =
        { emptyIntent with intent := some "create_task",
                           confidence := some conf_keyword }) ∧
    ((containsSub (py_lower t) "available" || containsSub (py_lower t) "free") = false →
      (containsSub (py_lower t) "book" || containsSub (py_lower t) "schedule") = false →
      (containsSub (py_lower t) "task" || containsSub (py_lower t) "todo") = false →
      rule_based_fallback t =
        { emptyIntent with intent := some "unknown",
                           confidence := some conf_unknown }) ∧
    (rule_based_fallback t).source = none := by
  refine ⟨rfl, ?_, ?_, ?_, ?_, ?_⟩
  · intro h1
    simp [rule_based_fallback, h1]
  · intro h1 h2
    simp [rule_based_fallback, h1, h2]
  · intro h1 h2 h3
    simp [rule_based_fallback, h1, h2, h3]
  · intro h1 h2 h3
    simp [rule_based_fallback, h1, h2, h3]
  · unfold rule_based_fallback
    dsimp only
    split
    next => rfl
    next =>
      split
      next => rfl
      next =>
        split
        next => rfl
        next => rfl

/-- Witness for C9 at a concrete utterance hitting the book/schedule
branch of the cascade. -/
theorem fallback_rule_table_witness :
    parse_intent (fun _ => none) (Except.error ()) "Schedule dentist" =
      rule_based_fallback "Schedule dentist" ∧
    rule_based_fallback "Schedule dentist" =
      { emptyIntent with intent := some "book_appointment",
                         confidence := some conf_keyword } ∧
    (rule_based_fallback "Schedule dentist").source = none := by
  refine ⟨(fallback_rule_table (fun _ => none) "Schedule dentist").1,
    (fallback_rule_table (fun _ => none) "Schedule dentist").2.2.1 (by decide) (by decide),
    (fallback_rule_table (fun _ => none) "Schedule dentist").2.2.2.2.2⟩

end Nlu

namespace Orch

/-- Modelled from the spec: `task_manager.py` is imported by the
orchestrator but is not among the provided sources; spec §6 gives
`TaskStore.create(title, description?, dueDate?) -> taskId`.  The store
keeps created tasks and hands out fresh ids. -/
structure TaskStore where
  tasks : List (Nat × String)
  next_id : Nat
deriving DecidableEq, Repr

def create_task (ts : TaskStore) (title : String) (_description : Option String)
    (_due_date : Option String) : Nat × TaskStore :=
  (ts.next_id, { tasks := ts.tasks ++ [(ts.next_id, title)], next_id := ts.next_id + 1 })

/-- The mutable stores `_execute_intent` can touch. -/
structure WorldState where
  calendar : Calendar.Store
  tasks : TaskStore
deriving DecidableEq, Repr

/-- A session context: the two keys `process_text` ever writes. -/
structure SessionCtx where
  last_intent : Option Nlu.IntentResult
  last_response : Option String
deriving DecidableEq, Repr

/-- `self.active_sessions`, an insertion-ordered dictionary. -/
abbrev Sessions := List (String × SessionCtx)

/-- `self.active_sessions.get(session_id, {}) if session_id else {}`. -/
def sessionsGet (ss : Sessions) (sid : Option String) : SessionCtx :=
  match sid with
  | none => { last_intent := none, last_response := none }
  | some k =>
    match ss.find? (fun p => p.1 == k) with
    | some p => p.2
    | none => { last_intent := none, last_response := none }

/-- `self.active_sessions[session_id] = ...`: overwrite or insert. -/
def sessionsSet (ss : Sessions) (k : String) (v : SessionCtx) : Sessions :=
  if ss.any (fun p => p.1 == k) then
    ss.map (fun p => if p.1 == k then (k, v) else p)
  else ss ++ [(k, v)]

/-- The try-block of `_execute_intent`.  `Except.error` models a raised
`KeyError` (`intent["datetime"]`, `intent["title"]`) and carries the
state at raise time; dictionary reads with defaults are `getD`. -/
def execute_intent_try (intent : Nlu.IntentResult) (st : WorldState) :
    Except (String × WorldState) (String × WorldState) :=
  let intent_type := intent.intent.getD "unknown"
  if intent_type = "check_availability" then
    match intent.datetime with
    | none => Except.ok ("I need a date and time to check availability.", st)
    | some dt =>
      let available := (Calendar.check_availability st.calendar dt (intent.duration.getD 60)).1
      if available.available then
        Except.ok ("Yes, " ++ toString dt ++ " is available. Would you like to book it?", st)
      else
        match available.suggested_times with
        | s :: _ =>
          Except.ok ("That time is not available. How about " ++ toString s ++ "?", st)
        | [] => Except.ok ("Sorry, no availability around that time.", st)
  else if intent_type = "book_appointment" then
    match intent.datetime with
    | none => Except.error ("datetime", st)
    | some dt =>
      let r := Calendar.book_appointment st.calendar (intent.title.getD "Appointment") dt
        (intent.duration.getD 60) (intent.attendees.getD [])
      Except.ok (r.1.message, { st with calendar := r.2 })
  else if intent_type = "create_task" then
    match intent.title with
    | none => Except.error ("title", st)
    | some title =>
      let r := create_task st.tasks title intent.description intent.due_date
      Except.ok ("Task created with ID " ++ toString r.1 ++ ".", { st with tasks := r.2 })
  else
    Except.ok ("I'm not sure how to help with that. Can you rephrase?", st)

/-- `_execute_intent` with its `except KeyError` handler (the broad
`except Exception` handler is unreachable in this model: no storage
errors are modelled). -/
def execute_intent (intent : Nlu.IntentResult) (st : WorldState) : String × WorldState :=
  match execute_intent_try intent st with
  | Except.ok r => r
  | Except.error r => ("I didn't get all the details. Please provide more information.", r.2)

/-- The success dictionary of `process_text`. -/
structure ProcessResult where
  success : Bool
  response : Option String
  intent : Option Nlu.IntentResult
deriving DecidableEq, Repr

/-- `process_text(text, session_id, use_cloud)` with the local parse
outcome and the cloud transport as external parameters: step 1 pulls the
session context (consumed only by the external parse), step 3 escalates
iff `use_cloud` and local confidence below 0.7 (re-parsing the cloud
text and tagging source "cloud"), step 4 executes the intent, step 5
overwrites the session entry — its spread of the old context is fully
shadowed by the two keys written. -/
def process_text (intent_result : Nlu.IntentResult) (use_cloud : Bool)
    (cloud_result : Option String) (reparse : String → Nlu.IntentResult)
    (sessions : Sessions) (st : WorldState) (session_id : Option String) :
    ProcessResult × Sessions × WorldState :=
  let _context := sessionsGet sessions session_id
  let intent1 :=
    if use_cloud && decide (intent_result.confidence.getD 1 < Nlu.conf_threshold) then
      match cloud_result with
      | some cr => { reparse cr with source := some "cloud" }
      | none => intent_result
    else intent_result
  let r := execute_intent intent1 st
  let sessions1 :=
    match session_id with
    | some sid =>
      sessionsSet sessions sid { last_intent := some intent1, last_response := some r.1 }
    | none => sessions
  ({ success := true, response := some r.1, intent := some intent1 }, sessions1, r.2)

/-- A BookAppointment intent lacking the required datetime. -/
def bookNoDt : Nlu.IntentResult :=
  { Nlu.emptyIntent with intent := some "book_appointment", confidence := some Nlu.conf_parsed }

def emptyWorld : WorldState :=
  { calendar := Calendar.emptyStore, tasks := { tasks := [], next_id := 1 } }

/-- C7 (counterexample): dispatching a BookAppointment intent without a
datetime under a session id does NOT leave the session state unchanged:
the empty session map gains an entry holding the intent and the
clarification reply. -/
theorem missing_datetime_updates_session :
    (process_text bookNoDt false none (fun _ => Nlu.emptyIntent) [] emptyWorld
        (some "s1")).2.1 ≠ ([] : Sessions) ∧
    (process_text bookNoDt false none (fun _ => Nlu.emptyIntent) [] emptyWorld
        (some "s1")).2.1 =
      [("s1", { last_intent := some bookNoDt,
                last_response :=
                  some "I didn't get all the details. Please provide more information." })] := by
  refine ⟨by decide, by decide⟩

/-- C7 (amended): executing a BookAppointment intent with no datetime
propagates no exception — the caller receives success with the
clarification reply of the KeyError handler — no appointment or task is
created (the stores are returned unchanged), and the session map is NOT
left unchanged: whenever a session id is present its entry is
overwritten with this intent and the clarification reply; only a call
without session id leaves the session map untouched. -/
theorem missing_datetime_clarifies_store_unchanged
    (intent : Nlu.IntentResult) (cloud : Option String)
    (reparse : String → Nlu.IntentResult) (sessions : Sessions)
    (st : WorldState) (sid : Option String)
    (hbook : intent.intent = some "book_appointment")
    (hnodt : intent.datetime = none) :
    (process_text intent false cloud reparse sessions st sid).1.success = true ∧
    (process_text intent false cloud reparse sessions st sid).1.response =
      some "I didn't get all the details. Please provide more information." ∧
    (process_text intent false cloud reparse sessions st sid).2.2 = st ∧
    (∀ s, sid = some s →
      (process_text intent false cloud reparse sessions st sid).2.1 =
        sessionsSet sessions s
          { last_intent := some intent,
            last_response :=
              some "I didn't get all the details. Please provide more information." }) ∧
    (sid = none →
      (process_text intent false cloud reparse sessions st sid).2.1 = sessions) := by
  have hexec : execute_intent intent st =
      ("I didn't get all the details. Please provide more information.", st) := by
    unfold execute_intent execute_intent_try
    rw [hbook, hnodt]
    dsimp only [Option.getD_some]
    rw [if_neg (by decide : ¬("book_appointment" : String) = "check_availability")]
    rw [if_pos rfl]
  unfold process_text
  simp only [Bool.false_and, Bool.false_eq_true, if_false, hexec]
  refine ⟨trivial, trivial, trivial, ?_, ?_⟩
  · intro s hs
    subst hs
    rfl
  · intro hs
    subst hs
    rfl

/-- Witness for C7 at a concrete intent, store and session id. -/
theorem missing_datetime_clarifies_store_unchanged_witness :
    (process_text bookNoDt false none (fun _ => Nlu.emptyIntent) [] emptyWorld
        (some "w1")).1.success = true ∧
    (process_text bookNoDt false none (fun _ => Nlu.emptyIntent) [] emptyWorld
        (some "w1")).2.2 = emptyWorld ∧
    (process_text bookNoDt false none (fun _ => Nlu.emptyIntent) [] emptyWorld
        (some "w1")).2.1 =
      sessionsSet [] "w1"
        { last_intent := some bookNoDt,
          last_response :=
            some "I didn't get all the details. Please provide more information." } := by
  obtain ⟨h1, _, h3, h4, _⟩ := missing_datetime_clarifies_store_unchanged bookNoDt none
    (fun _ => Nlu.emptyIntent) [] emptyWorld (some "w1") rfl rfl
  exact ⟨h1, h3, h4 "w1" rfl⟩

end Orch
